import Mathlib

/-
  Shallow embedding of src/src/ledger_service/server.py (ledger-mcp-server).

  The server keeps one piece of mutable state, the notes store
  (a Python dict from note name to note content).  CPython dicts preserve
  insertion order and an update of an existing key keeps its position, so
  the store is embedded as an association list with in-place update.

  Handlers are embedded as pure functions that take the store (and, for
  tool calls, the ledger adapter) explicitly and return the handler result
  together with the new store, whether a resource-list-changed notification
  was sent, and the list of adapter invocations performed.
-/

namespace LedgerMCP

/-- Characters written via their code point so that no character literal
appears in the file. -/
def slashChar : Char := Char.ofNat 47

def squoteChar : Char := Char.ofNat 39

/-- A single-quote string, used where the Python source interpolates
inside single quotes. -/
def sq : String := String.singleton squoteChar

/-- A Python dict from string to string, as an insertion-ordered
association list (CPython dict semantics: no key repeats). -/
abbrev Dict := List (String × String)

/-- Python `d.get(k)` / `d[k]` lookup: first (only) binding of the key. -/
def dictLookup (d : Dict) (k : String) : Option String :=
  match d with
  | [] => none
  | p :: rest => if p.1 == k then some p.2 else dictLookup rest k

/-- Python `d[k] = v` on an insertion-ordered dict: an existing key keeps
its position and gets the new value; a fresh key is appended at the end. -/
def dictSet (d : Dict) (k v : String) : Dict :=
  match d with
  | [] => [(k, v)]
  | p :: rest => if p.1 == k then (k, v) :: rest else p :: dictSet rest k v

/-- Whether a key is present in the dict. -/
def dictHasKey (d : Dict) (k : String) : Bool :=
  (dictLookup d k).isSome

/-- Python truthiness of an optional string: `None` and `""` are falsy. -/
def optFalsy : Option String → Bool
  | none => true
  | some s => s == ""

/-- Python truthiness of the `arguments` parameter (`dict | None`):
`None` and the empty dict are falsy. -/
def argsFalsy : Option Dict → Bool
  | none => true
  | some d => d.isEmpty

/-- Python f-string interpolation of a possibly-`None` string value. -/
def pyStr : Option String → String
  | none => "None"
  | some s => s

/-- Python `str.lstrip("/")`: drop every leading slash. -/
def lstripSlash (s : String) : String :=
  String.mk (s.data.dropWhile (fun c => c == slashChar))

/-- The Python exceptions raised by the handlers.  The spec names them
UnknownToolError / UnknownPromptError / InvalidArgumentsError /
UnsupportedSchemeError / NotFoundError; in the source they are `ValueError`
with a message, `KeyError` from a dict subscript, and `AttributeError`
from calling `.get` on `None`. -/
inductive PyError where
  | valueError (msg : String)
  | keyError (key : String)
  | attributeError (msg : String)
deriving DecidableEq

/-- An `mcp.types.TextContent` block. -/
structure TextContent where
  type : String
  text : String
deriving DecidableEq

/-- An `mcp.types.Resource` descriptor, with the URI kept as a string. -/
structure Resource where
  uri : String
  name : String
  description : String
  mimeType : String
deriving DecidableEq

/-- A parsed URI as the handler sees it (pydantic `AnyUrl`): its scheme and
its path component, `none` when the URI has no path.  For a URI written
`note://internal/<n>` the scheme is `note` and the path is `/<n>`. -/
structure Uri where
  scheme : String
  path : Option String
deriving DecidableEq

/-- An `mcp.types.PromptArgument`. -/
structure PromptArgument where
  name : String
  description : String
  required : Bool
deriving DecidableEq

/-- An `mcp.types.Prompt` descriptor. -/
structure Prompt where
  name : String
  description : String
  arguments : List PromptArgument
deriving DecidableEq

/-- An `mcp.types.PromptMessage` (content is always a text block here). -/
structure PromptMessage where
  role : String
  content : TextContent
deriving DecidableEq

/-- An `mcp.types.GetPromptResult`. -/
structure GetPromptResult where
  description : String
  messages : List PromptMessage
deriving DecidableEq

/-- An `mcp.types.Tool` descriptor; the JSON-Schema `inputSchema` is kept
as its property list (field name, type tag) and its required-field list. -/
structure Tool where
  name : String
  description : String
  properties : List (String × String)
  required : List String
deriving DecidableEq

/-- Modelled from the spec: the `myledger` Ledger Query Adapter is an
external collaborator whose code is not under src/.  Per §6 its three entry
points take a resolved ledger file path and return text:
`fetchAccounts(path) -> newline-separated account names`,
`getAccountBalance(path, account) -> formatted balance string`,
`getAccountRegister(path, account) -> formatted register string`.
The account argument is passed through from `arguments.get("account")`
and may therefore be `None`. -/
structure Adapter where
  fetch_accounts : String → String
  get_account_balance : String → Option String → String
  get_account_register : String → Option String → String

/-- An adapter with constant responses, used to instantiate theorems. -/
def constAdapter (a b r : String) : Adapter :=
  ⟨fun _ => a, fun _ _ => b, fun _ _ => r⟩

/-- One invocation of the Ledger Query Adapter performed during a tool
call: which entry point, with which path and (when applicable) account. -/
structure AdapterCall where
  func : String
  path : String
  account : Option String
deriving DecidableEq

/-- Decidable equality for `Except`, needed to evaluate handler results. -/
instance exceptDecEq {ε α : Type} [DecidableEq ε] [DecidableEq α] :
    DecidableEq (Except ε α) := fun a b =>
  match a, b with
  | .error e, .error f =>
      if h : e = f then isTrue (by rw [h])
      else isFalse (by intro hh; cases hh; exact h rfl)
  | .error _, .ok _ => isFalse (by intro hh; cases hh)
  | .ok _, .error _ => isFalse (by intro hh; cases hh)
  | .ok x, .ok y =>
      if h : x = y then isTrue (by rw [h])
      else isFalse (by intro hh; cases hh; exact h rfl)

/-- Everything observable about one `handle_call_tool` invocation: the
returned content blocks or the raised exception, the notes store after the
call, whether `send_resource_list_changed` was awaited, and the adapter
invocations made. -/
structure CallOutcome where
  result : Except PyError (List TextContent)
  notes : Dict
  notified : Bool
  adapterCalls : List AdapterCall
deriving DecidableEq

/-- The ledger file path built by the source:
`f"/Users/maksymprokopov/personal/ledger/{year}/experiment.ledger"`. -/
def ledgerFilePath (year : Option String) : String :=
  "/Users/maksymprokopov/personal/ledger/" ++ pyStr year ++ "/experiment.ledger"

/-- The `AttributeError` message Python raises for `None.get(...)`. -/
def noneGetMsg : String :=
  sq ++ "NoneType" ++ sq ++ " object has no attribute " ++ sq ++ "get" ++ sq

/-- `handle_list_resources`: one `note://internal/<name>` resource per
stored note, in store (= insertion) order. -/
def handle_list_resources (notes : Dict) : List Resource :=
  notes.map (fun p =>
    { uri := "note://internal/" ++ p.1
      name := "Note: " ++ p.1
      description := "A simple note named " ++ p.1
      mimeType := "text/plain" })

/-- `handle_read_resource`: reject any scheme other than `note`; otherwise
take the URI path, strip leading slashes, and subscript the notes dict
(a missing key raises `KeyError`); a `None` path raises
`ValueError("Note not found: None")`. -/
def handle_read_resource (notes : Dict) (uri : Uri) : Except PyError String :=
  if uri.scheme ≠ "note" then
    .error (.valueError ("Unsupported URI scheme: " ++ uri.scheme))
  else
    match uri.path with
    | some p =>
        let name := lstripSlash p
        match dictLookup notes name with
        | some content => .ok content
        | none => .error (.keyError name)
    | none => .error (.valueError "Note not found: None")

/-- `handle_list_prompts`: the single `summarize-notes` prompt. -/
def handle_list_prompts : List Prompt :=
  [{ name := "summarize-notes"
     description := "Creates a summary of all notes"
     arguments := [{ name := "style"
                     description := "Style of the summary (brief/detailed)"
                     required := false }] }]

/-- `handle_get_prompt`: only `summarize-notes` is known; `style` defaults
to `brief`; the suffix is appended exactly when `style == "detailed"`; the
body lists every stored note as `- <name>: <content>` in store order. -/
def handle_get_prompt (notes : Dict) (name : String) (arguments : Option Dict) :
    Except PyError GetPromptResult :=
  if name ≠ "summarize-notes" then
    .error (.valueError ("Unknown prompt: " ++ name))
  else
    let style := (dictLookup (arguments.getD []) "style").getD "brief"
    let detail_prompt := if style == "detailed" then " Give extensive details." else ""
    .ok { description := "Summarize the current notes"
          messages := [{ role := "user"
                         content := { type := "text"
                                      text := "Here are the current notes to summarize:"
                                        ++ detail_prompt ++ "\n\n"
                                        ++ String.intercalate "\n"
                                            (notes.map (fun p => "- " ++ p.1 ++ ": " ++ p.2)) } }] }

/-- `handle_list_tools`: the advertised tool catalog (three ledger tools;
`add-note` is not advertised). -/
def handle_list_tools : List Tool :=
  [{ name := "list-accounts"
     description := "List all ledger accounts"
     properties := [("year", "string")]
     required := ["year"] },
   { name := "account-balance"
     description := "Get the balance of an account"
     properties := [("year", "string"), ("account", "string")]
     required := ["year", "account"] },
   { name := "account-register"
     description := "Get the register of an account"
     properties := [("year", "string"), ("account", "string")]
     required := ["year", "account"] }]

/-- `handle_call_tool`: dispatch on the tool name.  `add-note` validates
truthiness of the argument mapping and of `name`/`content`, updates the
dict, and notifies; the three ledger tools read their arguments with
`.get` (no presence check: a missing key yields `None`, and a `None`
argument mapping raises `AttributeError` at `.get`), build the ledger file
path, and call the adapter; any other name raises
`ValueError("Unknown tool: <name>")`. -/
def handle_call_tool (ad : Adapter) (notes : Dict) (name : String)
    (arguments : Option Dict) : CallOutcome :=
  if name == "add-note" then
    if argsFalsy arguments then
      ⟨.error (.valueError "Missing arguments"), notes, false, []⟩
    else
      let args := arguments.getD []
      let note_name := dictLookup args "name"
      let content := dictLookup args "content"
      if optFalsy note_name || optFalsy content then
        ⟨.error (.valueError "Missing name or content"), notes, false, []⟩
      else
        ⟨.ok [{ type := "text"
                text := "Added note " ++ sq ++ pyStr note_name ++ sq
                  ++ " with content: " ++ pyStr content }],
         dictSet notes (pyStr note_name) (pyStr content), true, []⟩
  else if name == "list-accounts" then
    match arguments with
    | none => ⟨.error (.attributeError noneGetMsg), notes, false, []⟩
    | some args =>
        let year := dictLookup args "year"
        let path := ledgerFilePath year
        let account_list := ad.fetch_accounts path
        let accounts_text := "\nLedger Accounts:\n"
          ++ String.intercalate "\n"
              (account_list.data.map (fun c => "- " ++ String.singleton c))
        ⟨.ok [{ type := "text", text := accounts_text }], notes, false,
         [⟨"fetch_accounts", path, none⟩]⟩
  else if name == "account-balance" then
    match arguments with
    | none => ⟨.error (.attributeError noneGetMsg), notes, false, []⟩
    | some args =>
        let year := dictLookup args "year"
        let account := dictLookup args "account"
        let path := ledgerFilePath year
        let balance := ad.get_account_balance path account
        ⟨.ok [{ type := "text"
                text := "The balance of " ++ pyStr account ++ " is " ++ balance }],
         notes, false, [⟨"get_account_balance", path, account⟩]⟩
  else if name == "account-register" then
    match arguments with
    | none => ⟨.error (.attributeError noneGetMsg), notes, false, []⟩
    | some args =>
        let year := dictLookup args "year"
        let account := dictLookup args "account"
        let path := ledgerFilePath year
        let register := ad.get_account_register path account
        ⟨.ok [{ type := "text"
                text := "The register of " ++ pyStr account ++ " is " ++ register }],
         notes, false, [⟨"get_account_register", path, account⟩]⟩
  else
    ⟨.error (.valueError ("Unknown tool: " ++ name)), notes, false, []⟩

/-- Newline character, written via its code point. -/
def nlChar : Char := Char.ofNat 10

/-- Split a string into its newline-separated lines (Python
`s.split("\n")`). -/
def splitLinesAux : List Char → List Char → List String
  | [], acc => [String.mk acc.reverse]
  | c :: rest, acc =>
      if c == nlChar then String.mk acc.reverse :: splitLinesAux rest []
      else splitLinesAux rest (c :: acc)

def splitLines (s : String) : List String :=
  splitLinesAux s.data []

/-- The rendering the spec claims for `list-accounts`: the header followed
by one `- <account>` line per line of the raw newline-separated adapter
output (the result split into lines).  Stated from the spec words, to be
compared with what `handle_call_tool` actually produces. -/
def specListAccountsText (raw : String) : String :=
  "\nLedger Accounts:\n"
    ++ String.intercalate "\n" ((splitLines raw).map (fun a => "- " ++ a))

/-- Python `s.endswith(t)`, computed structurally on the character
lists. -/
def strEndsWith (s t : String) : Bool :=
  t.data.reverse.isPrefixOf s.data.reverse

/-- Run a sequence of `add-note` tool calls, threading the notes store. -/
def runAddNotes (ad : Adapter) (ops : List (String × String)) (notes : Dict) : Dict :=
  match ops with
  | [] => notes
  | p :: rest =>
      runAddNotes ad rest
        (handle_call_tool ad notes "add-note" (some [("name", p.1), ("content", p.2)])).notes

/-! Helper lemmas about the insertion-ordered dict. -/

theorem dictLookup_set_self (d : Dict) (k v : String) :
    dictLookup (dictSet d k v) k = some v := by
  induction d with
  | nil => simp [dictSet, dictLookup]
  | cons p rest ih =>
    by_cases hp : p.1 == k
    · simp [dictSet, hp, dictLookup]
    · simp [dictSet, hp, dictLookup, ih]

theorem mem_dictSet_self (d : Dict) (k v : String) :
    (k, v) ∈ dictSet d k v := by
  induction d with
  | nil => simp [dictSet]
  | cons p rest ih =>
    by_cases hp : p.1 == k
    · simp [dictSet, hp]
    · simp [dictSet, hp]
      exact Or.inr ih

theorem dictSet_eq_append (d : Dict) (k v : String) (h : dictHasKey d k = false) :
    dictSet d k v = d ++ [(k, v)] := by
  induction d with
  | nil => rfl
  | cons p rest ih =>
    by_cases hp : p.1 == k
    · simp [dictHasKey, dictLookup, hp] at h
    · have h2 : dictHasKey rest k = false := by
        simpa [dictHasKey, dictLookup, hp] using h
      simp [dictSet, hp, ih h2]

theorem dictSet_keys_of_mem (d : Dict) (k v : String) (h : dictHasKey d k = true) :
    (dictSet d k v).map Prod.fst = d.map Prod.fst := by
  induction d with
  | nil => simp [dictHasKey, dictLookup] at h
  | cons p rest ih =>
    by_cases hp : p.1 == k
    · have hk : p.1 = k := by simpa using hp
      simp [dictSet, hp, hk]
    · have h2 : dictHasKey rest k = true := by
        simpa [dictHasKey, dictLookup, hp] using h
      simp [dictSet, hp, ih h2]

theorem dictHasKey_append (d1 d2 : Dict) (k : String) :
    dictHasKey (d1 ++ d2) k = (dictHasKey d1 k || dictHasKey d2 k) := by
  induction d1 with
  | nil => simp [dictHasKey, dictLookup]
  | cons p rest ih =>
    by_cases hp : p.1 == k
    · simp [dictHasKey, dictLookup, hp]
    · simpa [dictHasKey, dictLookup, hp] using ih

/-- Evaluation of a well-formed `add-note` call: validation passes, the
note is stored with `dictSet`, the notification is sent, and the adapter
is not involved. -/
theorem addNote_eval (ad : Adapter) (st : Dict) (x y : String)
    (hx : x ≠ "") (hy : y ≠ "") :
    handle_call_tool ad st "add-note" (some [("name", x), ("content", y)])
      = ⟨.ok [{ type := "text"
                text := "Added note " ++ sq ++ x ++ sq ++ " with content: " ++ y }],
         dictSet st x y, true, []⟩ := by
  have hx2 : (x == "") = false := beq_eq_false_iff_ne.mpr hx
  have hy2 : (y == "") = false := beq_eq_false_iff_ne.mpr hy
  simp [handle_call_tool, argsFalsy, dictLookup, optFalsy, pyStr, hx2, hy2]

/-- Evaluation of the list-accounts branch: the adapter is called on the
path built from `arguments.get("year")` and its raw output is iterated
character by character. -/
theorem listAccounts_eval (ad : Adapter) (st : Dict) (args : Dict) :
    handle_call_tool ad st "list-accounts" (some args)
      = ⟨.ok [{ type := "text"
                text := "\nLedger Accounts:\n"
                  ++ String.intercalate "\n"
                      ((ad.fetch_accounts (ledgerFilePath (dictLookup args "year"))).data.map
                        (fun c => "- " ++ String.singleton c)) }],
         st, false,
         [⟨"fetch_accounts", ledgerFilePath (dictLookup args "year"), none⟩]⟩ := rfl

/-- Evaluation of the account-balance branch. -/
theorem accountBalance_eval (ad : Adapter) (st : Dict) (args : Dict) :
    handle_call_tool ad st "account-balance" (some args)
      = ⟨.ok [{ type := "text"
                text := "The balance of " ++ pyStr (dictLookup args "account") ++ " is "
                  ++ ad.get_account_balance (ledgerFilePath (dictLookup args "year"))
                      (dictLookup args "account") }],
         st, false,
         [⟨"get_account_balance", ledgerFilePath (dictLookup args "year"),
           dictLookup args "account"⟩]⟩ := rfl

/-- Evaluation of the account-register branch. -/
theorem accountRegister_eval (ad : Adapter) (st : Dict) (args : Dict) :
    handle_call_tool ad st "account-register" (some args)
      = ⟨.ok [{ type := "text"
                text := "The register of " ++ pyStr (dictLookup args "account") ++ " is "
                  ++ ad.get_account_register (ledgerFilePath (dictLookup args "year"))
                      (dictLookup args "account") }],
         st, false,
         [⟨"get_account_register", ledgerFilePath (dictLookup args "year"),
           dictLookup args "account"⟩]⟩ := rfl

/-- Stripping the single slash that URI parsing puts before the note name
recovers the name, provided the name does not itself begin with a slash. -/
theorem lstripSlash_slash_append (x : String) (hs : x.data.head? ≠ some slashChar) :
    lstripSlash ("/" ++ x) = x := by
  have h1 : ("/" ++ x).data = slashChar :: x.data := by
    rw [String.data_append]
    rfl
  have h3 : x.data.dropWhile (fun c => c == slashChar) = x.data := by
    cases hd : x.data with
    | nil => rfl
    | cons c rest =>
      have hc : c ≠ slashChar := by
        intro hc
        exact hs (by rw [hd, hc]; rfl)
      rw [List.dropWhile_cons]
      simp [hc]
  unfold lstripSlash
  rw [h1, List.dropWhile_cons]
  simp [h3]

/-- Rendering of the `summarize-notes` prompt, for any store and any
argument mapping: the instruction line (with the detail suffix exactly
when `style` is `detailed`), a blank line, and one line per stored note. -/
theorem getPrompt_eval (notes : Dict) (arguments : Option Dict) :
    handle_get_prompt notes "summarize-notes" arguments
      = .ok { description := "Summarize the current notes"
              messages := [{ role := "user"
                             content := { type := "text"
                                          text := (if (dictLookup (arguments.getD []) "style").getD "brief" == "detailed"
                                              then "Here are the current notes to summarize: Give extensive details."
                                              else "Here are the current notes to summarize:")
                                            ++ "\n\n"
                                            ++ String.intercalate "\n"
                                                (notes.map (fun p => "- " ++ p.1 ++ ": " ++ p.2)) } }] } := by
  have hemp : ∀ s : String, "" ++ s = s := fun s => rfl
  have hlit : ("Here are the current notes to summarize:" : String) ++ " Give extensive details."
      = "Here are the current notes to summarize: Give extensive details." := by decide
  cases hb : ((dictLookup (arguments.getD []) "style").getD "brief" == "detailed") with
  | true => simp [handle_get_prompt, hb, ← hlit, String.append_assoc]
  | false => simp [handle_get_prompt, hb, String.append_assoc, hemp]

/-! Claim theorems. -/

/-- C1: the spec claims the list-accounts response renders one
`- <account>` line per line of the adapter's newline-separated raw output.
The handler instead iterates the raw string directly, which in Python
iterates characters: with raw output `ab` (one account named `ab`) the
code renders `- a` and `- b`, while the spec's rendering (the result split
into lines) would render the single line `- ab`. -/
theorem C1_list_accounts_per_character_divergence :
    (handle_call_tool (constAdapter "ab" "" "") [] "list-accounts"
        (some [("year", "2024")])).result
      = .ok [{ type := "text", text := "\nLedger Accounts:\n- a\n- b" }]
    ∧ specListAccountsText "ab" = "\nLedger Accounts:\n- ab"
    ∧ ("\nLedger Accounts:\n- a\n- b" : String) ≠ "\nLedger Accounts:\n- ab" := by
  refine ⟨rfl, rfl, by decide⟩

/-- C2 counterexample: calling list-accounts with an argument mapping that
lacks `year` does not fail with InvalidArgumentsError — the call succeeds
and the adapter is invoked, with `None` interpolated into the ledger
path. -/
theorem C2_missing_year_reaches_adapter :
    (handle_call_tool (constAdapter "" "" "") [] "list-accounts" (some [])).adapterCalls
      = [⟨"fetch_accounts", "/Users/maksymprokopov/personal/ledger/None/experiment.ledger",
          none⟩]
    ∧ (handle_call_tool (constAdapter "" "" "") [] "list-accounts" (some [])).result
      = .ok [{ type := "text", text := "\nLedger Accounts:\n" }] := by
  exact ⟨rfl, rfl⟩

/-- C2 (amended): the ledger tools perform no argument-presence check.
With an argument mapping that lacks `year`, each ledger tool still calls
the adapter — with `None` interpolated into the ledger file path (and the
missing `account` passed through as `None`) — and the call succeeds.  Only
a wholly absent argument mapping fails, with an AttributeError raised by
`.get` on `None` (not InvalidArgumentsError), before the adapter is
called. -/
theorem C2_ledger_tools_no_validation (ad : Adapter) (st : Dict) (d : Dict)
    (hy : dictLookup d "year" = none) :
    ((handle_call_tool ad st "list-accounts" (some d)).adapterCalls
        = [⟨"fetch_accounts", ledgerFilePath none, none⟩]
      ∧ ∃ blocks, (handle_call_tool ad st "list-accounts" (some d)).result = .ok blocks)
    ∧ ((handle_call_tool ad st "account-balance" (some d)).adapterCalls
        = [⟨"get_account_balance", ledgerFilePath none, dictLookup d "account"⟩]
      ∧ ∃ blocks, (handle_call_tool ad st "account-balance" (some d)).result = .ok blocks)
    ∧ ((handle_call_tool ad st "account-register" (some d)).adapterCalls
        = [⟨"get_account_register", ledgerFilePath none, dictLookup d "account"⟩]
      ∧ ∃ blocks, (handle_call_tool ad st "account-register" (some d)).result = .ok blocks)
    ∧ (handle_call_tool ad st "list-accounts" none
        = ⟨.error (.attributeError noneGetMsg), st, false, []⟩)
    ∧ (handle_call_tool ad st "account-balance" none
        = ⟨.error (.attributeError noneGetMsg), st, false, []⟩)
    ∧ (handle_call_tool ad st "account-register" none
        = ⟨.error (.attributeError noneGetMsg), st, false, []⟩) := by
  rw [listAccounts_eval, accountBalance_eval, accountRegister_eval, hy]
  exact ⟨⟨rfl, ⟨_, rfl⟩⟩, ⟨rfl, ⟨_, rfl⟩⟩, ⟨rfl, ⟨_, rfl⟩⟩, rfl, rfl, rfl⟩

/-- C2 witness: an argument mapping carrying only `account` lacks `year`,
yet the adapter is called with the `None` path. -/
theorem C2_ledger_tools_no_validation_witness :
    (handle_call_tool (constAdapter "" "" "") [] "list-accounts"
        (some [("account", "cash")])).adapterCalls
      = [⟨"fetch_accounts", ledgerFilePath none, none⟩] :=
  (C2_ledger_tools_no_validation (constAdapter "" "" "") [] [("account", "cash")] rfl).1.1

/-- C3: an add-note call whose argument mapping is entirely missing, or
whose `name` or `content` entry is missing or empty, fails with the
ValueError the spec calls InvalidArgumentsError, leaves the notes store
unchanged, sends no notification, and never touches the adapter. -/
theorem C3_add_note_invalid_arguments (ad : Adapter) (st : Dict)
    (arguments : Option Dict)
    (h : arguments = none ∨ ∃ d, arguments = some d ∧
          (dictLookup d "name" = none ∨ dictLookup d "name" = some ""
            ∨ dictLookup d "content" = none ∨ dictLookup d "content" = some "")) :
    ∃ msg, handle_call_tool ad st "add-note" arguments
        = ⟨.error (.valueError msg), st, false, []⟩ := by
  rcases h with h | ⟨d, rfl, hd⟩
  · subst h
    exact ⟨"Missing arguments", rfl⟩
  · cases d with
    | nil => exact ⟨"Missing arguments", rfl⟩
    | cons p rest =>
      refine ⟨"Missing name or content", ?_⟩
      have hor : (optFalsy (dictLookup (p :: rest) "name")
          || optFalsy (dictLookup (p :: rest) "content")) = true := by
        rcases hd with h | h | h | h <;> simp [optFalsy, h]
      simp [handle_call_tool, argsFalsy, hor]

/-- C3 witness: an argument mapping with only `name` fails and leaves the
store unchanged. -/
theorem C3_add_note_invalid_arguments_witness :
    ∃ msg, handle_call_tool (constAdapter "" "" "") [("k", "v")] "add-note"
        (some [("name", "x")])
      = ⟨.error (.valueError msg), [("k", "v")], false, []⟩ :=
  C3_add_note_invalid_arguments (constAdapter "" "" "") [("k", "v")]
    (some [("name", "x")]) (Or.inr ⟨_, rfl, Or.inr (Or.inr (Or.inl rfl))⟩)

/-- C4: readResource rejects any scheme other than `note` regardless of
path; with scheme `note` it fails when the URI has no path (ValueError
`Note not found: None`) or when the slash-stripped name is not stored
(KeyError on the name, the NotFoundError of the spec), and returns the
stored content otherwise. -/
theorem C4_read_resource_dispatch (notes : Dict) (uri : Uri) :
    (uri.scheme ≠ "note" →
      handle_read_resource notes uri
        = .error (.valueError ("Unsupported URI scheme: " ++ uri.scheme)))
    ∧ (uri.scheme = "note" → uri.path = none →
      handle_read_resource notes uri = .error (.valueError "Note not found: None"))
    ∧ (∀ p content, uri.scheme = "note" → uri.path = some p →
        dictLookup notes (lstripSlash p) = some content →
        handle_read_resource notes uri = .ok content)
    ∧ (∀ p, uri.scheme = "note" → uri.path = some p →
        dictLookup notes (lstripSlash p) = none →
        handle_read_resource notes uri = .error (.keyError (lstripSlash p))) := by
  refine ⟨?_, ?_, ?_, ?_⟩
  · intro h
    simp [handle_read_resource, h]
  · intro h hp
    simp [handle_read_resource, h, hp]
  · intro p content h hp hc
    simp [handle_read_resource, h, hp, hc]
  · intro p h hp hc
    simp [handle_read_resource, h, hp, hc]

/-- C4 witness: scheme `http` is rejected even though the path names a
stored note. -/
theorem C4_read_resource_dispatch_witness :
    handle_read_resource [("x", "y")] ⟨"http", some "/x"⟩
      = .error (.valueError "Unsupported URI scheme: http") :=
  (C4_read_resource_dispatch [("x", "y")] ⟨"http", some "/x"⟩).1 (by decide)

/-- C5: a tool name outside the four handled ones fails with
`Unknown tool: <name>`, leaves the notes store unchanged, sends no
notification, and performs no adapter call. -/
theorem C5_unknown_tool (ad : Adapter) (st : Dict) (name : String)
    (arguments : Option Dict)
    (h : name ∉ (["list-accounts", "account-balance", "account-register",
        "add-note"] : List String)) :
    handle_call_tool ad st name arguments
      = ⟨.error (.valueError ("Unknown tool: " ++ name)), st, false, []⟩ := by
  simp only [List.mem_cons, List.not_mem_nil, or_false, not_or] at h
  obtain ⟨h1, h2, h3, h4⟩ := h
  have b1 : (name == "add-note") = false := beq_eq_false_iff_ne.mpr h4
  have b2 : (name == "list-accounts") = false := beq_eq_false_iff_ne.mpr h1
  have b3 : (name == "account-balance") = false := beq_eq_false_iff_ne.mpr h2
  have b4 : (name == "account-register") = false := beq_eq_false_iff_ne.mpr h3
  simp [handle_call_tool, b1, b2, b3, b4]

/-- C5 witness: the unadvertised name `frobnicate` is rejected and the
store is untouched. -/
theorem C5_unknown_tool_witness :
    handle_call_tool (constAdapter "" "" "") [("a", "b")] "frobnicate" none
      = ⟨.error (.valueError ("Unknown tool: " ++ "frobnicate")), [("a", "b")],
         false, []⟩ :=
  C5_unknown_tool (constAdapter "" "" "") [("a", "b")] "frobnicate" none (by decide)

/-- C6 counterexample: the claim quantifies over every non-empty name, but
a note named `/a` (added successfully) cannot be read back: the URI
`note://internal//a` has path `//a`, `lstrip("/")` strips both slashes,
and the lookup of `a` raises KeyError instead of returning the content. -/
theorem C6_slash_name_breaks_round_trip :
    (handle_call_tool (constAdapter "" "" "") [] "add-note"
        (some [("name", "/a"), ("content", "b")])).notes = [("/a", "b")]
    ∧ handle_read_resource [("/a", "b")] ⟨"note", some ("/" ++ "/a")⟩
        = .error (.keyError "a")
    ∧ (Except.error (PyError.keyError "a") : Except PyError String) ≠ .ok "b" := by
  exact ⟨rfl, rfl, by decide⟩

/-- C6 (amended): for every non-empty name `x` that does not begin with a
slash and non-empty content `y`, after a successful add-note the resource
`note://internal/<x>` (scheme `note`, path `/<x>`) reads back as `y`, and
the listing contains the derived descriptor for `x`. -/
theorem C6_add_note_round_trip (ad : Adapter) (st : Dict) (x y : String)
    (hx : x ≠ "") (hy : y ≠ "") (hs : x.data.head? ≠ some slashChar) :
    (∃ blocks, (handle_call_tool ad st "add-note"
        (some [("name", x), ("content", y)])).result = .ok blocks)
    ∧ handle_read_resource
        (handle_call_tool ad st "add-note" (some [("name", x), ("content", y)])).notes
        ⟨"note", some ("/" ++ x)⟩ = .ok y
    ∧ ({ uri := "note://internal/" ++ x
         name := "Note: " ++ x
         description := "A simple note named " ++ x
         mimeType := "text/plain" } : Resource)
        ∈ handle_list_resources
            (handle_call_tool ad st "add-note" (some [("name", x), ("content", y)])).notes := by
  rw [addNote_eval ad st x y hx hy]
  refine ⟨⟨_, rfl⟩, ?_, ?_⟩
  · show handle_read_resource (dictSet st x y) ⟨"note", some ("/" ++ x)⟩ = .ok y
    simp [handle_read_resource, lstripSlash_slash_append x hs, dictLookup_set_self]
  · show _ ∈ handle_list_resources (dictSet st x y)
    exact List.mem_map.mpr ⟨(x, y), mem_dictSet_self st x y, rfl⟩

/-- C6 witness: the round trip at the concrete note `hello` / `world`. -/
theorem C6_add_note_round_trip_witness :
    handle_read_resource
      (handle_call_tool (constAdapter "" "" "") [] "add-note"
        (some [("name", "hello"), ("content", "world")])).notes
      ⟨"note", some ("/" ++ "hello")⟩ = .ok "world" :=
  (C6_add_note_round_trip (constAdapter "" "" "") [] "hello" "world"
    (by decide) (by decide) (by decide)).2.1

/-- C7: the rendered summarize-notes prompt is the instruction line, a
blank line, and one `- <name>: <content>` line per stored note in store
order; the instruction line ends with the literal suffix
` Give extensive details.` exactly when the `style` argument equals
`detailed` (absent or any other value appends nothing). -/
theorem C7_summarize_notes_style (notes : Dict) (arguments : Option Dict) :
    ∃ instr : String,
      handle_get_prompt notes "summarize-notes" arguments
        = .ok { description := "Summarize the current notes"
                messages := [{ role := "user"
                               content := { type := "text"
                                            text := instr ++ "\n\n"
                                              ++ String.intercalate "\n"
                                                  (notes.map (fun p => "- " ++ p.1 ++ ": " ++ p.2)) } }] }
      ∧ strEndsWith instr " Give extensive details."
          = ((dictLookup (arguments.getD []) "style").getD "brief" == "detailed")
      ∧ (instr = "Here are the current notes to summarize:"
          ∨ instr = "Here are the current notes to summarize: Give extensive details.") := by
  refine ⟨if (dictLookup (arguments.getD []) "style").getD "brief" == "detailed"
      then "Here are the current notes to summarize: Give extensive details."
      else "Here are the current notes to summarize:",
    getPrompt_eval notes arguments, ?_, ?_⟩
  · cases hb : ((dictLookup (arguments.getD []) "style").getD "brief" == "detailed") with
    | true => decide
    | false => decide
  · cases hb : ((dictLookup (arguments.getD []) "style").getD "brief" == "detailed") with
    | true => exact Or.inr rfl
    | false => exact Or.inl rfl

/-- Adding notes with pairwise-distinct non-empty names onto a store that
does not yet hold any of them appends them in call order. -/
theorem runAddNotes_eq_append (ad : Adapter) (ops : List (String × String)) :
    ∀ st : Dict, (∀ p ∈ ops, p.1 ≠ "" ∧ p.2 ≠ "") → (ops.map Prod.fst).Nodup →
      (∀ p ∈ ops, dictHasKey st p.1 = false) →
      runAddNotes ad ops st = st ++ ops := by
  induction ops with
  | nil =>
    intro st _ _ _
    simp [runAddNotes]
  | cons p rest ih =>
    intro st h1 h2 h3
    have hp := h1 p (List.mem_cons_self p rest)
    have hmap : ((p :: rest).map Prod.fst) = p.1 :: rest.map Prod.fst := rfl
    rw [hmap, List.nodup_cons] at h2
    simp only [runAddNotes]
    rw [addNote_eval ad st p.1 p.2 hp.1 hp.2]
    show runAddNotes ad rest (dictSet st p.1 p.2) = st ++ p :: rest
    rw [dictSet_eq_append st p.1 p.2 (h3 p (List.mem_cons_self p rest))]
    rw [ih (st ++ [(p.1, p.2)])
      (fun q hq => h1 q (List.mem_cons_of_mem p hq)) h2.2 ?keys]
    · simp
    case keys =>
      intro q hq
      rw [dictHasKey_append]
      have hq1 : dictHasKey st q.1 = false := h3 q (List.mem_cons_of_mem p hq)
      have hne : p.1 ≠ q.1 := by
        intro he
        exact h2.1 (he ▸ List.mem_map_of_mem Prod.fst hq)
      have hq2 : dictHasKey [(p.1, p.2)] q.1 = false := by
        simp [dictHasKey, dictLookup, beq_eq_false_iff_ne.mpr hne]
      rw [hq1, hq2]
      rfl

/-- C8: notes added in sequence with distinct names are enumerated in
insertion order, both by the resource listing and by the rendered
summarize-notes prompt body. -/
theorem C8_insertion_order (ad : Adapter) (ops : List (String × String))
    (h1 : ∀ p ∈ ops, p.1 ≠ "" ∧ p.2 ≠ "") (h2 : (ops.map Prod.fst).Nodup) :
    (handle_list_resources (runAddNotes ad ops [])).map Resource.name
        = ops.map (fun p => "Note: " ++ p.1)
    ∧ handle_get_prompt (runAddNotes ad ops []) "summarize-notes" none
        = .ok { description := "Summarize the current notes"
                messages := [{ role := "user"
                               content := { type := "text"
                                            text := "Here are the current notes to summarize:"
                                              ++ "\n\n"
                                              ++ String.intercalate "\n"
                                                  (ops.map (fun p => "- " ++ p.1 ++ ": " ++ p.2)) } }] } := by
  have hrun : runAddNotes ad ops [] = ops := by
    have h := runAddNotes_eq_append ad ops [] h1 h2 (fun q _ => rfl)
    simpa using h
  rw [hrun]
  constructor
  · simp [handle_list_resources]
  · rw [getPrompt_eval]
    rfl

/-- C8 witness: adding `a` then `b` lists `a` before `b`. -/
theorem C8_insertion_order_witness :
    (handle_list_resources
        (runAddNotes (constAdapter "" "" "") [("a", "1"), ("b", "2")] [])).map
        Resource.name
      = ["Note: a", "Note: b"] := by
  have h := (C8_insertion_order (constAdapter "" "" "") [("a", "1"), ("b", "2")]
    (by decide) (by decide)).1
  exact h.trans rfl

/-- C9: the advertised catalog contains exactly the three ledger tools and
no `add-note` descriptor, yet dispatching `add-note` with valid arguments
succeeds. -/
theorem C9_unadvertised_add_note :
    handle_list_tools.map Tool.name
        = ["list-accounts", "account-balance", "account-register"]
    ∧ "add-note" ∉ handle_list_tools.map Tool.name
    ∧ ∀ (ad : Adapter) (st : Dict) (x y : String), x ≠ "" → y ≠ "" →
        ∃ blocks, (handle_call_tool ad st "add-note"
            (some [("name", x), ("content", y)])).result = .ok blocks := by
  refine ⟨rfl, by decide, ?_⟩
  intro ad st x y hx hy
  rw [addNote_eval ad st x y hx hy]
  exact ⟨_, rfl⟩

/-- C9 witness: a concrete `add-note` dispatch succeeds although the tool
is not advertised. -/
theorem C9_unadvertised_add_note_witness :
    ∃ blocks, (handle_call_tool (constAdapter "" "" "") [] "add-note"
        (some [("name", "x"), ("content", "y")])).result = .ok blocks :=
  C9_unadvertised_add_note.2.2 (constAdapter "" "" "") [] "x" "y"
    (by decide) (by decide)

/-- C10: a successful add-note over an existing name keeps the store size
and the key order (the note stays in place) and replaces the content; a
fresh name is appended at the end of enumeration order. -/
theorem C10_overwrite_in_place (ad : Adapter) (st : Dict) (x y : String)
    (hx : x ≠ "") (hy : y ≠ "") :
    (dictHasKey st x = true →
      (handle_call_tool ad st "add-note"
          (some [("name", x), ("content", y)])).notes.map Prod.fst
        = st.map Prod.fst
      ∧ (handle_call_tool ad st "add-note"
          (some [("name", x), ("content", y)])).notes.length = st.length
      ∧ dictLookup (handle_call_tool ad st "add-note"
          (some [("name", x), ("content", y)])).notes x = some y)
    ∧ (dictHasKey st x = false →
      (handle_call_tool ad st "add-note"
          (some [("name", x), ("content", y)])).notes = st ++ [(x, y)]) := by
  rw [addNote_eval ad st x y hx hy]
  constructor
  · intro h
    refine ⟨dictSet_keys_of_mem st x y h, ?_, dictLookup_set_self st x y⟩
    have hk := dictSet_keys_of_mem st x y h
    calc (dictSet st x y).length = ((dictSet st x y).map Prod.fst).length := by
          rw [List.length_map]
      _ = (st.map Prod.fst).length := by rw [hk]
      _ = st.length := List.length_map st Prod.fst
  · intro h
    exact dictSet_eq_append st x y h

/-- C10 witness: overwriting the first of two notes keeps order and size;
adding a fresh note appends it. -/
theorem C10_overwrite_in_place_witness :
    (handle_call_tool (constAdapter "" "" "") [("a", "1"), ("b", "2")] "add-note"
        (some [("name", "a"), ("content", "9")])).notes.map Prod.fst
      = ["a", "b"] := by
  have h := ((C10_overwrite_in_place (constAdapter "" "" "")
    [("a", "1"), ("b", "2")] "a" "9" (by decide) (by decide)).1 (by decide)).1
  exact h.trans rfl

end LedgerMCP
